import Mathlib

/-!
Verification of the USB-JR-BAY CRSF bridge firmware.

This file gives a shallow embedding, in Lean 4, of the protocol engine of
the firmware: the CRC-8 codec (table-driven and iterative forms), the
16-channel 11-bit pack/unpack codec, the two frame-assembler state machines
(host link and module link), the failsafe liveness check, the adaptive
timing synchronizer, and the transmit scheduler.  Machine integers are
modelled as Nat (unsigned) or Int (signed) with explicit reduction modulo
2 to the word width where the C code truncates; arrays are modelled as
lists or as index functions; callbacks are modelled as recorded event
lists.  Theorems about these definitions settle the specification claims.
-/

set_option maxHeartbeats 1000000
set_option maxRecDepth 16384

/-- CRC8 lookup table (polynomial 0xD5), transcribed entry for entry from
crc8_lut in crsf_protocol.cpp. -/
def crc8_lut : List ℕ := [
  0x00, 0xD5, 0x7F, 0xAA, 0xFE, 0x2B, 0x81, 0x54,
  0x29, 0xFC, 0x56, 0x83, 0xD7, 0x02, 0xA8, 0x7D,
  0x52, 0x87, 0x2D, 0xF8, 0xAC, 0x79, 0xD3, 0x06,
  0x7B, 0xAE, 0x04, 0xD1, 0x85, 0x50, 0xFA, 0x2F,
  0xA4, 0x71, 0xDB, 0x0E, 0x5A, 0x8F, 0x25, 0xF0,
  0x8D, 0x58, 0xF2, 0x27, 0x73, 0xA6, 0x0C, 0xD9,
  0xF6, 0x23, 0x89, 0x5C, 0x08, 0xDD, 0x77, 0xA2,
  0xDF, 0x0A, 0xA0, 0x75, 0x21, 0xF4, 0x5E, 0x8B,
  0x9D, 0x48, 0xE2, 0x37, 0x63, 0xB6, 0x1C, 0xC9,
  0xB4, 0x61, 0xCB, 0x1E, 0x4A, 0x9F, 0x35, 0xE0,
  0xCF, 0x1A, 0xB0, 0x65, 0x31, 0xE4, 0x4E, 0x9B,
  0xE6, 0x33, 0x99, 0x4C, 0x18, 0xCD, 0x67, 0xB2,
  0x39, 0xEC, 0x46, 0x93, 0xC7, 0x12, 0xB8, 0x6D,
  0x10, 0xC5, 0x6F, 0xBA, 0xEE, 0x3B, 0x91, 0x44,
  0x6B, 0xBE, 0x14, 0xC1, 0x95, 0x40, 0xEA, 0x3F,
  0x42, 0x97, 0x3D, 0xE8, 0xBC, 0x69, 0xC3, 0x16,
  0xEF, 0x3A, 0x90, 0x45, 0x11, 0xC4, 0x6E, 0xBB,
  0xC6, 0x13, 0xB9, 0x6C, 0x38, 0xED, 0x47, 0x92,
  0xBD, 0x68, 0xC2, 0x17, 0x43, 0x96, 0x3C, 0xE9,
  0x94, 0x41, 0xEB, 0x3E, 0x6A, 0xBF, 0x15, 0xC0,
  0x4B, 0x9E, 0x34, 0xE1, 0xB5, 0x60, 0xCA, 0x1F,
  0x62, 0xB7, 0x1D, 0xC8, 0x9C, 0x49, 0xE3, 0x36,
  0x19, 0xCC, 0x66, 0xB3, 0xE7, 0x32, 0x98, 0x4D,
  0x30, 0xE5, 0x4F, 0x9A, 0xCE, 0x1B, 0xB1, 0x64,
  0x72, 0xA7, 0x0D, 0xD8, 0x8C, 0x59, 0xF3, 0x26,
  0x5B, 0x8E, 0x24, 0xF1, 0xA5, 0x70, 0xDA, 0x0F,
  0x20, 0xF5, 0x5F, 0x8A, 0xDE, 0x0B, 0xA1, 0x74,
  0x09, 0xDC, 0x76, 0xA3, 0xF7, 0x22, 0x88, 0x5D,
  0xD6, 0x03, 0xA9, 0x7C, 0x28, 0xFD, 0x57, 0x82,
  0xFF, 0x2A, 0x80, 0x55, 0x01, 0xD4, 0x7E, 0xAB,
  0x84, 0x51, 0xFB, 0x2E, 0x7A, 0xAF, 0x05, 0xD0,
  0xAD, 0x78, 0xD2, 0x07, 0x53, 0x86, 0x2C, 0xF9 ]

/-- Table-driven CRC-8 of crsf_protocol.cpp: crc starts at 0 and each input
byte indexes the lookup table with crc xor byte (a uint8_t index, hence the
reduction mod 256). -/
def crsf_crc8 (data : List ℕ) : ℕ :=
  data.foldl (fun crc b => crc8_lut.getD ((crc ^^^ b) % 256) 0) 0

/-- One inner-loop iteration of CrsfCrc::calc in crsf_protocol.h: shift the
crc left by one and xor in the 0xD5 polynomial when the top bit was set;
the assignment back to the uint8_t crc truncates mod 256. -/
def crc8_round (crc : ℕ) : ℕ :=
  if crc &&& 0x80 ≠ 0 then ((crc <<< 1) ^^^ 0xD5) % 256 else (crc <<< 1) % 256

/-- The 8-fold iteration of the inner loop of CrsfCrc::calc. -/
def crc8_rounds : ℕ → ℕ → ℕ
  | 0, crc => crc
  | j + 1, crc => crc8_rounds j (crc8_round crc)

/-- Iterative bit-at-a-time CRC CrsfCrc::calc of crsf_protocol.h: for each
byte, xor it into the crc (a uint8_t, hence mod 256) and run eight rounds
of the polynomial step. -/
def CrsfCrc.calc (data : List ℕ) (crc : ℕ) : ℕ :=
  data.foldl (fun c b => crc8_rounds 8 ((c ^^^ b) % 256)) crc

/-- Truncation to a uint8_t value, as performed by the (uint8_t) casts on
the packed-byte assignments in crsf_pack_channels. -/
def u8 (n : ℕ) : ℕ := n % 256

/-- crsf_pack_channels of crsf_protocol.cpp: bit-packs 16 channel values,
11 bits each and least-significant-bit first, into 22 bytes; each list
entry is the corresponding packed-byte assignment of the source, with the
uint8_t cast rendered as u8. -/
def crsf_pack_channels (ch : ℕ → ℕ) : List ℕ :=
  [ u8 (ch 0 &&& 0xFF),
    u8 ((ch 0 >>> 8) ||| (ch 1 <<< 3)),
    u8 ((ch 1 >>> 5) ||| (ch 2 <<< 6)),
    u8 ((ch 2 >>> 2) &&& 0xFF),
    u8 ((ch 2 >>> 10) ||| (ch 3 <<< 1)),
    u8 ((ch 3 >>> 7) ||| (ch 4 <<< 4)),
    u8 ((ch 4 >>> 4) ||| (ch 5 <<< 7)),
    u8 ((ch 5 >>> 1) &&& 0xFF),
    u8 ((ch 5 >>> 9) ||| (ch 6 <<< 2)),
    u8 ((ch 6 >>> 6) ||| (ch 7 <<< 5)),
    u8 ((ch 7 >>> 3) &&& 0xFF),
    u8 (ch 8 &&& 0xFF),
    u8 ((ch 8 >>> 8) ||| (ch 9 <<< 3)),
    u8 ((ch 9 >>> 5) ||| (ch 10 <<< 6)),
    u8 ((ch 10 >>> 2) &&& 0xFF),
    u8 ((ch 10 >>> 10) ||| (ch 11 <<< 1)),
    u8 ((ch 11 >>> 7) ||| (ch 12 <<< 4)),
    u8 ((ch 12 >>> 4) ||| (ch 13 <<< 7)),
    u8 ((ch 13 >>> 1) &&& 0xFF),
    u8 ((ch 13 >>> 9) ||| (ch 14 <<< 2)),
    u8 ((ch 14 >>> 6) ||| (ch 15 <<< 5)),
    u8 ((ch 15 >>> 3) &&& 0xFF) ]

/-- crsf_unpack_channels of crsf_protocol.cpp: extracts the 16 channel
values from the 22 packed bytes, masking each to 11 bits. -/
def crsf_unpack_channels (p : ℕ → ℕ) : List ℕ :=
  [ (p 0 ||| p 1 <<< 8) &&& 0x07FF,
    (p 1 >>> 3 ||| p 2 <<< 5) &&& 0x07FF,
    (p 2 >>> 6 ||| p 3 <<< 2 ||| p 4 <<< 10) &&& 0x07FF,
    (p 4 >>> 1 ||| p 5 <<< 7) &&& 0x07FF,
    (p 5 >>> 4 ||| p 6 <<< 4) &&& 0x07FF,
    (p 6 >>> 7 ||| p 7 <<< 1 ||| p 8 <<< 9) &&& 0x07FF,
    (p 8 >>> 2 ||| p 9 <<< 6) &&& 0x07FF,
    (p 9 >>> 5 ||| p 10 <<< 3) &&& 0x07FF,
    (p 11 ||| p 12 <<< 8) &&& 0x07FF,
    (p 12 >>> 3 ||| p 13 <<< 5) &&& 0x07FF,
    (p 13 >>> 6 ||| p 14 <<< 2 ||| p 15 <<< 10) &&& 0x07FF,
    (p 15 >>> 1 ||| p 16 <<< 7) &&& 0x07FF,
    (p 16 >>> 4 ||| p 17 <<< 4) &&& 0x07FF,
    (p 17 >>> 7 ||| p 18 <<< 1 ||| p 19 <<< 9) &&& 0x07FF,
    (p 19 >>> 2 ||| p 20 <<< 6) &&& 0x07FF,
    (p 20 >>> 5 ||| p 21 <<< 3) &&& 0x07FF ]

/-- Arduino map helper as used by RCChannels::microsecondsToCRSF: long
integer arithmetic with C division (truncation toward zero). -/
def arduinoMap (x inMin inMax outMin outMax : ℤ) : ℤ :=
  Int.tdiv ((x - inMin) * (outMax - outMin)) (inMax - inMin) + outMin

/-- Arduino constrain helper: clamp amt into the closed range low..high. -/
def constrain (amt low high : ℤ) : ℤ :=
  if amt < low then low else if amt > high then high else amt

/-- Channel center value, CRSF_CHANNEL_VALUE_MID 992 in crsf_protocol.h
(rc_channels.cpp refers to it as CRSF_CHANNEL_CENTER). -/
def CRSF_CHANNEL_CENTER : ℕ := 992

/-- Lower clamp bound, CRSF_CHANNEL_VALUE_MIN 172 in crsf_protocol.h. -/
def CRSF_CHANNEL_MIN : ℤ := 172

/-- Upper clamp bound, CRSF_CHANNEL_VALUE_MAX 1811 in crsf_protocol.h. -/
def CRSF_CHANNEL_MAX : ℤ := 1811

/-- RCChannels::microsecondsToCRSF of rc_channels.cpp: map microseconds
1000..2000 onto 191..1792 and constrain into the protocol channel bounds;
the result is stored back into a uint16_t, always nonnegative here. -/
def RCChannels.microsecondsToCRSF (us : ℕ) : ℕ :=
  (constrain (arduinoMap us 1000 2000 191 1792)
    CRSF_CHANNEL_MIN CRSF_CHANNEL_MAX).toNat

/-- RCChannels::setChannel of rc_channels.cpp: 1-based channel number;
out-of-range channel numbers leave the 16-slot array untouched. -/
def RCChannels.setChannel (chs : List ℕ) (channel : ℕ) (microseconds : ℕ) :
    List ℕ :=
  if channel < 1 ∨ channel > 16 then chs
  else chs.set (channel - 1) (RCChannels.microsecondsToCRSF microseconds)

/-- RCChannels::setChannelsCRSF of rc_channels.cpp: overwrite all 16 slots
from the given source array. -/
def RCChannels.setChannelsCRSF (crsfChannels : ℕ → ℕ) : List ℕ :=
  (List.range 16).map crsfChannels

/-- RCChannels::getChannelCRSF of rc_channels.cpp: 0-based index; indexes
at or beyond 16 return the center value instead of reading the array. -/
def RCChannels.getChannelCRSF (chs : List ℕ) (channel : ℕ) : ℕ :=
  if channel ≥ 16 then CRSF_CHANNEL_CENTER else chs.getD channel 0

/-- RCChannels::centerAll of rc_channels.cpp. -/
def RCChannels.centerAll : List ℕ := List.replicate 16 CRSF_CHANNEL_CENTER

/-- CDCParser::FAILSAFE_TIMEOUT_US of cdc_parser.h (100 ms). -/
def FAILSAFE_TIMEOUT_US : ℕ := 100000

/-- CDCParser::isFailsafe of cdc_parser.cpp as a function of the stored
lastRCFrameTime and the current micros() value, both uint32_t ticks; the
elapsed time is the wrapping uint32_t difference now - lastRCFrameTime. -/
def CDCParser.isFailsafe (lastRCFrameTime now : ℕ) : Bool :=
  if lastRCFrameTime = 0 then true
  else decide ((now + 2 ^ 32 - lastRCFrameTime) % 2 ^ 32 > FAILSAFE_TIMEOUT_US)

/-- CRSF_DEFAULT_PERIOD_US of module_sync.h: 4 ms default RC frame period. -/
def CRSF_DEFAULT_PERIOD_US : ℕ := 4000

/-- CRSF_MIN_PERIOD_US of module_sync.cpp. -/
def CRSF_MIN_PERIOD_US : ℤ := 1000

/-- CRSF_MAX_PERIOD_US of module_sync.cpp. -/
def CRSF_MAX_PERIOD_US : ℤ := 50000

/-- Reduction of an integer to the int32_t value it denotes under
twos-complement wrap, applied wherever the C code computes into int32_t. -/
def i32 (n : ℤ) : ℤ := (n + 2 ^ 31) % 2 ^ 32 - 2 ^ 31

/-- The ModuleSync state of module_sync.h: refreshRate and inputLag are
int32_t fields, lastUpdate is the millis() stamp of the latest update and
valid records whether updateTiming has ever run.  The optional callback
member is never installed in this firmware (main.cpp only sets the
parser-side timing callback), so it is omitted. -/
structure ModuleSync where
  refreshRate : ℤ
  inputLag : ℤ
  lastUpdate : ℕ
  valid : Bool
  deriving Repr, DecidableEq

/-- The ModuleSync constructor state: zeroed and invalid. -/
def ModuleSync.init : ModuleSync :=
  { refreshRate := 0, inputLag := 0, lastUpdate := 0, valid := false }

/-- ModuleSync::updateTiming of module_sync.cpp: unconditionally overwrite
the timing state, stamp it with millis() and mark it valid. -/
def ModuleSync.updateTiming (_s : ModuleSync) (refreshRateUs inputLagUs : ℤ)
    (nowMs : ℕ) : ModuleSync :=
  { refreshRate := refreshRateUs, inputLag := inputLagUs,
    lastUpdate := nowMs, valid := true }

/-- ModuleSync::getAdjustedPeriod of module_sync.cpp: default period when
never updated; otherwise clamp refreshRate + inputLag into the period
bounds, consume the applied portion of the lag, and return the clamped
value (cast to uint32_t; it is in 1000..50000 so the cast is exact).
Returns the period together with the mutated state. -/
def ModuleSync.getAdjustedPeriod (s : ModuleSync) : ℕ × ModuleSync :=
  if !s.valid then (CRSF_DEFAULT_PERIOD_US, s)
  else
    let adjustedPeriod0 := i32 (s.refreshRate + s.inputLag)
    let adjustedPeriod :=
      if adjustedPeriod0 < CRSF_MIN_PERIOD_US then CRSF_MIN_PERIOD_US
      else if adjustedPeriod0 > CRSF_MAX_PERIOD_US then CRSF_MAX_PERIOD_US
      else adjustedPeriod0
    let newLag := i32 (s.inputLag - i32 (adjustedPeriod - s.refreshRate))
    (adjustedPeriod.toNat, { s with inputLag := newLag })



/-- Maximum total CRSF frame size in bytes.  The CRSF_MAX_FRAME_SIZE macro
lives in a protocol header not present in the sources; the spec fixes the
bound at 64 bytes, matching CRSF_FRAME_SIZE_MAX 64 in crsf_protocol.h. -/
def CRSF_MAX_FRAME_SIZE : ℕ := 64

/-- Frame type 0x16, RC channels (CRSF_FRAMETYPE_RC_CHANNELS_PACKED in
crsf_protocol.h; the source comments give 0x16 for the RC channels type). -/
def CRSF_FRAMETYPE_RC_CHANNELS : ℕ := 0x16

/-- Frame type 0x28, device ping (CRSF_FRAMETYPE_DEVICE_PING in
crsf_protocol.h). -/
def CRSF_FRAMETYPE_PING_DEVICES : ℕ := 0x28

/-- Frame type 0x2C, parameter read (crsf_protocol.h). -/
def CRSF_FRAMETYPE_PARAMETER_READ : ℕ := 0x2C

/-- Frame type 0x2D, parameter write (crsf_protocol.h). -/
def CRSF_FRAMETYPE_PARAMETER_WRITE : ℕ := 0x2D

/-- Frame type 0x32, command (crsf_protocol.h). -/
def CRSF_FRAMETYPE_COMMAND : ℕ := 0x32

/-- Frame type of the timing-correction (RADIO_ID) frame.  The
CRSF_FRAMETYPE_RADIO_ID macro lives in a protocol header not present in
the sources; crsf_protocol.h carries the same value 0x3A under the name
CRSF_FRAMETYPE_HANDSET, the standard CRSF type of this frame. -/
def CRSF_FRAMETYPE_RADIO_ID : ℕ := 0x3A

/-- Timing subcommand 0x10 (CRSF_HANDSET_SUBCMD_TIMING in crsf_protocol.h;
crsf_parser.cpp refers to it as CRSF_SUBCMD_TIMING). -/
def CRSF_SUBCMD_TIMING : ℕ := 0x10

/-- Length of the packed RC channels payload: 22 bytes
(CRSF_RC_CHANNELS_PAYLOAD_SIZE in crsf_protocol.h). -/
def CRSF_RC_CHANNELS_PACKED_LEN : ℕ := 22

/-- Total length of an RC channels frame: 26 bytes. -/
def CRSF_RC_FRAME_LEN : ℕ := 26

/-- Sync byte 0xC8 accepted as frame start (the source comments identify
CRSF_SYNC_BYTE as 0xC8, the flight-controller address). -/
def CRSF_SYNC_BYTE : ℕ := 0xC8

/-- Radio / handset address 0xEA (the source comments identify
CRSF_ADDRESS_RADIO as 0xEA; crsf_protocol.h names this value
CRSF_ADDRESS_RADIO_TRANSMITTER). -/
def CRSF_ADDRESS_RADIO_TRANSMITTER : ℕ := 0xEA

/-- Receiver address 0xEC (CRSF_ADDRESS_CRSF_RECEIVER in crsf_protocol.h). -/
def CRSF_ADDRESS_RECEIVER : ℕ := 0xEC

/-- Module address 0xEE (the source comments identify CRSF_ADDRESS_MODULE
as 0xEE; crsf_protocol.h names this value CRSF_ADDRESS_CRSF_TRANSMITTER). -/
def CRSF_ADDRESS_MODULE : ℕ := 0xEE

/-- The three-state frame assembler state machine shared by the State
enums of cdc_parser.h and crsf_parser.h. -/
inductive AsmState
  | WAIT_SYNC
  | WAIT_LENGTH
  | RECEIVE_DATA
  deriving Repr, DecidableEq

/-- Write one byte into an rx buffer modelled as an index function. -/
def bufWrite (buf : ℕ → ℕ) (i v : ℕ) : ℕ → ℕ :=
  fun j => if j = i then v else buf j

/-- The CRC check both parsers apply to an assembled frame: the CRC-8 over
type and payload must equal the trailing CRC byte. -/
def crcOk (frame : List ℕ) : Bool :=
  crsf_crc8 ((frame.drop 2).take (frame.getD 1 0 - 1))
    == frame.getD (frame.length - 1) 0

/-- The CDCParser state of cdc_parser.h.  The RCChannels object the parser
mutates through its reference is carried as the channels field; the
forward callback is passed explicitly to the processing functions and its
invocations are returned as an event list. -/
structure CDCParser where
  state : AsmState
  rxBuffer : ℕ → ℕ
  rxBufferIndex : ℕ
  rxFrameLength : ℕ
  channels : List ℕ
  framesReceived : ℕ
  crcErrors : ℕ
  rcFramesReceived : ℕ
  forwardedFrames : ℕ
  lastRCFrameTime : ℕ

/-- The CDCParser constructor state: waiting for sync, all counters zero,
lastRCFrameTime 0 (failsafe active). -/
def CDCParser.init (channels : List ℕ) : CDCParser where
  state := .WAIT_SYNC
  rxBuffer := fun _ => 0
  rxBufferIndex := 0
  rxFrameLength := 0
  channels := channels
  framesReceived := 0
  crcErrors := 0
  rcFramesReceived := 0
  forwardedFrames := 0
  lastRCFrameTime := 0

/-- CDCParser::isValidSyncByte of cdc_parser.cpp. -/
def CDCParser.isValidSyncByte (b : ℕ) : Bool :=
  b == CRSF_SYNC_BYTE || b == CRSF_ADDRESS_RADIO_TRANSMITTER ||
    b == CRSF_ADDRESS_RECEIVER || b == CRSF_ADDRESS_MODULE

/-- CDCParser::processFrame of cdc_parser.cpp.  The fwd argument is the
forward callback (its Bool result mirrors the queueing outcome), now is
the micros() value read when an RC frame is accepted, and the returned
list records each frame passed to the forward callback. -/
def CDCParser.processFrame (fwd : List ℕ → Bool) (now : ℕ)
    (s : CDCParser) (frame : List ℕ) : CDCParser × List (List ℕ) :=
  if frame.length < 4 then (s, [])
  else
    let frameLen := frame.getD 1 0
    let type := frame.getD 2 0
    if frameLen + 2 ≠ frame.length then (s, [])
    else
      let expectedCRC := crsf_crc8 ((frame.drop 2).take (frameLen - 1))
      let receivedCRC := frame.getD (frame.length - 1) 0
      if expectedCRC ≠ receivedCRC then
        ({ s with crcErrors := s.crcErrors + 1 }, [])
      else
        let s1 := { s with framesReceived := s.framesReceived + 1 }
        if type = CRSF_FRAMETYPE_RC_CHANNELS then
          if frameLen - 2 = CRSF_RC_CHANNELS_PACKED_LEN then
            let newChannels := crsf_unpack_channels (fun i => frame.getD (3 + i) 0)
            ({ s1 with
                channels :=
                  RCChannels.setChannelsCRSF (fun i => newChannels.getD i 0),
                rcFramesReceived := s1.rcFramesReceived + 1,
                lastRCFrameTime := now }, [])
          else (s1, [])
        else if type = CRSF_FRAMETYPE_PING_DEVICES ∨
            type = CRSF_FRAMETYPE_PARAMETER_READ ∨
            type = CRSF_FRAMETYPE_PARAMETER_WRITE ∨
            type = CRSF_FRAMETYPE_COMMAND then
          if fwd frame then
            ({ s1 with forwardedFrames := s1.forwardedFrames + 1 }, [frame])
          else (s1, [frame])
        else (s1, [])

/-- One CDCParser::processByte call: the updated parser, the frames handed
to the forward callback, and the rx-buffer indices written. -/
structure CDCStep where
  parser : CDCParser
  forwarded : List (List ℕ)
  writes : List ℕ

/-- CDCParser::processByte of cdc_parser.cpp. -/
def CDCParser.processByte (fwd : List ℕ → Bool) (now : ℕ)
    (s : CDCParser) (b : ℕ) : CDCStep :=
  match s.state with
  | .WAIT_SYNC =>
      if CDCParser.isValidSyncByte b then
        ⟨{ s with
            rxBuffer := bufWrite s.rxBuffer 0 b, rxBufferIndex := 1,
            state := .WAIT_LENGTH }, [], [0]⟩
      else ⟨s, [], []⟩
  | .WAIT_LENGTH =>
      if 2 ≤ b ∧ b ≤ CRSF_MAX_FRAME_SIZE - 2 then
        ⟨{ s with
            rxBuffer := bufWrite s.rxBuffer 1 b, rxBufferIndex := 2,
            rxFrameLength := b + 2, state := .RECEIVE_DATA }, [], [1]⟩
      else ⟨{ s with state := .WAIT_SYNC }, [], []⟩
  | .RECEIVE_DATA =>
      let s1 := { s with
                  rxBuffer := bufWrite s.rxBuffer s.rxBufferIndex b,
                  rxBufferIndex := s.rxBufferIndex + 1 }
      if s1.rxBufferIndex ≥ s1.rxFrameLength then
        let frame := (List.range s1.rxFrameLength).map s1.rxBuffer
        let r := CDCParser.processFrame fwd now s1 frame
        ⟨{ r.1 with state := .WAIT_SYNC }, r.2, [s.rxBufferIndex]⟩
      else ⟨s1, [], [s.rxBufferIndex]⟩

/-- Fold CDCParser::processByte over a byte sequence, concatenating the
event lists. -/
def CDCParser.processBytes (fwd : List ℕ → Bool) (now : ℕ) :
    CDCParser → List ℕ → CDCStep
  | s, [] => ⟨s, [], []⟩
  | s, b :: rest =>
      let r := CDCParser.processByte fwd now s b
      let r2 := CDCParser.processBytes fwd now r.parser rest
      ⟨r2.parser, r.forwarded ++ r2.forwarded, r.writes ++ r2.writes⟩

/-- The value an unsigned 32-bit bit pattern denotes as an int32_t. -/
def toInt32 (u : ℕ) : ℤ :=
  if u % 2 ^ 32 < 2 ^ 31 then (u % 2 ^ 32 : ℤ) else (u % 2 ^ 32 : ℤ) - 2 ^ 32

/-- The CRSFParser state of crsf_parser.h.  The two callbacks are passed
explicitly to the processing functions; their invocations are returned as
event lists. -/
structure CRSFParser where
  state : AsmState
  rxBuffer : ℕ → ℕ
  rxBufferIndex : ℕ
  rxFrameLength : ℕ
  framesReceived : ℕ
  crcErrors : ℕ

/-- The CRSFParser constructor state. -/
def CRSFParser.init : CRSFParser where
  state := .WAIT_SYNC
  rxBuffer := fun _ => 0
  rxBufferIndex := 0
  rxFrameLength := 0
  framesReceived := 0
  crcErrors := 0

/-- CRSFParser::isValidSyncByte of crsf_parser.cpp. -/
def CRSFParser.isValidSyncByte (b : ℕ) : Bool :=
  b == CRSF_SYNC_BYTE || b == CRSF_ADDRESS_RADIO_TRANSMITTER ||
    b == CRSF_ADDRESS_RECEIVER || b == CRSF_ADDRESS_MODULE

/-- CRSFParser::parseRadioIdFrame of crsf_parser.cpp: on a timing
subcommand, extract the big-endian interval and offset (tenths of a
microsecond), divide by 10 with C division, and report them through the
timing sync callback; the returned list records that invocation. -/
def CRSFParser.parseRadioIdFrame (payload : List ℕ) : List (ℤ × ℤ) :=
  if payload.length < 11 then []
  else if payload.getD 2 0 ≠ CRSF_SUBCMD_TIMING then []
  else
    let interval := toInt32 ((payload.getD 3 0) <<< 24 ||| (payload.getD 4 0) <<< 16 |||
        (payload.getD 5 0) <<< 8 ||| payload.getD 6 0)
    let offset := toInt32 ((payload.getD 7 0) <<< 24 ||| (payload.getD 8 0) <<< 16 |||
        (payload.getD 9 0) <<< 8 ||| payload.getD 10 0)
    [(Int.tdiv interval 10, Int.tdiv offset 10)]

/-- CRSFParser::processFrame of crsf_parser.cpp: returns the updated
parser, the frames handed to the to-CDC callback, and the timing updates
handed to the timing sync callback. -/
def CRSFParser.processFrame (s : CRSFParser) (frame : List ℕ) :
    CRSFParser × List (List ℕ) × List (ℤ × ℤ) :=
  if frame.length < 4 then (s, [], [])
  else
    let frameLen := frame.getD 1 0
    let type := frame.getD 2 0
    if frameLen + 2 ≠ frame.length then (s, [], [])
    else
      let expectedCRC := crsf_crc8 ((frame.drop 2).take (frameLen - 1))
      let receivedCRC := frame.getD (frame.length - 1) 0
      if expectedCRC ≠ receivedCRC then
        ({ s with crcErrors := s.crcErrors + 1 }, [], [])
      else
        let s1 := { s with framesReceived := s.framesReceived + 1 }
        let payload := (frame.drop 3).take (frameLen - 2)
        if type = CRSF_FRAMETYPE_RADIO_ID then
          (s1, [], CRSFParser.parseRadioIdFrame payload)
        else
          (s1, [frame], [])

/-- One CRSFParser::processByte call: the updated parser, the frames
handed to the to-CDC callback, the timing updates, and the rx-buffer
indices written. -/
structure CRSFStep where
  parser : CRSFParser
  toCDC : List (List ℕ)
  timing : List (ℤ × ℤ)
  writes : List ℕ

/-- CRSFParser::processByte of crsf_parser.cpp. -/
def CRSFParser.processByte (s : CRSFParser) (b : ℕ) : CRSFStep :=
  match s.state with
  | .WAIT_SYNC =>
      if CRSFParser.isValidSyncByte b then
        ⟨{ s with
            rxBuffer := bufWrite s.rxBuffer 0 b, rxBufferIndex := 1,
            state := .WAIT_LENGTH }, [], [], [0]⟩
      else ⟨s, [], [], []⟩
  | .WAIT_LENGTH =>
      if 2 ≤ b ∧ b ≤ CRSF_MAX_FRAME_SIZE - 2 then
        ⟨{ s with
            rxBuffer := bufWrite s.rxBuffer 1 b, rxBufferIndex := 2,
            rxFrameLength := b + 2, state := .RECEIVE_DATA }, [], [], [1]⟩
      else ⟨{ s with state := .WAIT_SYNC }, [], [], []⟩
  | .RECEIVE_DATA =>
      let s1 := { s with
                  rxBuffer := bufWrite s.rxBuffer s.rxBufferIndex b,
                  rxBufferIndex := s.rxBufferIndex + 1 }
      if s1.rxBufferIndex ≥ s1.rxFrameLength then
        let frame := (List.range s1.rxFrameLength).map s1.rxBuffer
        let r := CRSFParser.processFrame s1 frame
        ⟨{ r.1 with state := .WAIT_SYNC }, r.2.1, r.2.2, [s.rxBufferIndex]⟩
      else ⟨s1, [], [], [s.rxBufferIndex]⟩

/-- Fold CRSFParser::processByte over a byte sequence. -/
def CRSFParser.processBytes :
    CRSFParser → List ℕ → CRSFStep
  | s, [] => ⟨s, [], [], []⟩
  | s, b :: rest =>
      let r := CRSFParser.processByte s b
      let r2 := CRSFParser.processBytes r.parser rest
      ⟨r2.parser, r.toCDC ++ r2.toCDC, r.timing ++ r2.timing,
        r.writes ++ r2.writes⟩

/-- crsf_build_rc_frame of crsf_protocol.cpp: module address, length 24,
RC channels type, 22 packed bytes, CRC over type and payload. -/
def crsf_build_rc_frame (ch : ℕ → ℕ) : List ℕ :=
  [CRSF_ADDRESS_MODULE, CRSF_RC_CHANNELS_PACKED_LEN + 2,
    CRSF_FRAMETYPE_RC_CHANNELS]
    ++ crsf_pack_channels ch
    ++ [crsf_crc8 (CRSF_FRAMETYPE_RC_CHANNELS :: crsf_pack_channels ch)]

/-- crsf_build_ping_frame of crsf_protocol.cpp: the 6-byte broadcast
device ping. -/
def crsf_build_ping_frame : List ℕ :=
  [CRSF_SYNC_BYTE, 4, CRSF_FRAMETYPE_PING_DEVICES, 0x00,
    CRSF_ADDRESS_RADIO_TRANSMITTER,
    crsf_crc8 [CRSF_FRAMETYPE_PING_DEVICES, 0x00,
      CRSF_ADDRESS_RADIO_TRANSMITTER]]

/-- The CRSFTask per-instance state of crsf_task.h: the last-send
timestamp, the sent-frame counter and the single-slot output queue.  The
collaborator references (uart, parsers, sync, channels) live in SysState. -/
structure CRSFTask where
  lastRCFrameTime : ℕ
  rcFramesSent : ℕ
  outputFrameBuffer : List ℕ
  outputFrameLength : ℕ
  outputFramePending : Bool

/-- The CRSFTask constructor state. -/
def CRSFTask.init : CRSFTask where
  lastRCFrameTime := 0
  rcFramesSent := 0
  outputFrameBuffer := []
  outputFrameLength := 0
  outputFramePending := false

/-- CRSFTask::queueOutputFrame of crsf_task.cpp: refuse when a frame is
already pending or the length exceeds CRSF_MAX_FRAME_SIZE; otherwise copy
length bytes into the slot, record the length, mark pending and report
success. -/
def CRSFTask.queueOutputFrame (s : CRSFTask) (data : List ℕ) (length : ℕ) :
    CRSFTask × Bool :=
  if s.outputFramePending ∨ length > CRSF_MAX_FRAME_SIZE then (s, false)
  else
    ({ s with
        outputFrameBuffer := data.take length,
        outputFrameLength := length,
        outputFramePending := true }, true)

/-- The CRSFUart state of crsf_uart.h: the transmitting flag, the hardware
TX-idle condition polled by isTXComplete (txDone), the pending receive
bytes and the log of transmitted frames.  The initialized flag of the
source is true throughout operation and is omitted. -/
structure CRSFUart where
  transmitting : Bool
  txDone : Bool
  rxQueue : List ℕ
  txLog : List (List ℕ)

/-- CRSFUart::isTXComplete of crsf_uart.cpp: true when not transmitting,
otherwise the hardware TX-idle condition. -/
def CRSFUart.isTXComplete (u : CRSFUart) : Bool :=
  !u.transmitting || u.txDone

/-- CRSFUart::transmit of crsf_uart.cpp: switch to TX mode, mark
transmitting and write the bytes (logged here). -/
def CRSFUart.transmit (u : CRSFUart) (data : List ℕ) : CRSFUart :=
  { u with transmitting := true, txLog := u.txLog ++ [data] }

/-- CRSFUart::switchToRX of crsf_uart.cpp: when transmitting, clear the
flag and flush any echo bytes from the receive queue. -/
def CRSFUart.switchToRX (u : CRSFUart) : CRSFUart :=
  if !u.transmitting then u
  else { u with transmitting := false, rxQueue := [] }

/-- The composed state CRSFTask::run operates on: the UART, the
module-link parser, the timing synchronizer, the CDCParser failsafe
timestamp, the shared channel set, and the task state.  This mirrors the
object graph wired up in main.cpp, where the parser timing-sync callback
calls ModuleSync::updateTiming. -/
structure SysState where
  uart : CRSFUart
  parser : CRSFParser
  sync : ModuleSync
  cdcLastRCFrameTime : ℕ
  channels : List ℕ
  task : CRSFTask

/-- One byte of the CRSFTask::run drain loop: feed the byte to the module
parser and apply any timing-sync callback invocation to ModuleSync, as
wired in main.cpp.  Frames forwarded to the host (Serial.write) leave the
modelled system. -/
def drainStep (nowMs : ℕ) (ps : CRSFParser × ModuleSync) (b : ℕ) :
    CRSFParser × ModuleSync :=
  let r := ps.1.processByte b
  (r.parser, r.timing.foldl (fun sy rl => sy.updateTiming rl.1 rl.2 nowMs) ps.2)

/-- The CRSFTask::run drain loop: read all available bytes into the module
parser. -/
def SysState.drain (s : SysState) (nowMs : ℕ) : SysState :=
  let pr := s.uart.rxQueue.foldl (drainStep nowMs) (s.parser, s.sync)
  { s with
      parser := pr.1, sync := pr.2,
      uart := { s.uart with rxQueue := [] } }

/-- CRSFTask::isTimeToSendRC of crsf_task.cpp: the wrapping uint32_t
difference micros() - lastRCFrameTime must reach the adjusted period;
calling getAdjustedPeriod consumes the timing offset, so the mutated
SysState is returned alongside the decision. -/
def SysState.isTimeToSendRC (s : SysState) (now : ℕ) : Bool × SysState :=
  let r := s.sync.getAdjustedPeriod
  (decide ((now + 2 ^ 32 - s.task.lastRCFrameTime) % 2 ^ 32 ≥ r.1),
    { s with sync := r.2 })

/-- CRSFTask::sendRCFrame of crsf_task.cpp: build an RC channels frame
from the current channel set, transmit it and count it. -/
def SysState.sendRCFrame (s : SysState) : SysState :=
  { s with
      uart := s.uart.transmit (crsf_build_rc_frame (fun i => s.channels.getD i 0)),
      task := { s.task with rcFramesSent := s.task.rcFramesSent + 1 } }

/-- CRSFTask::run of crsf_task.cpp: handle TX completion, drain incoming
bytes when not transmitting, and when the send deadline has passed either
skip (failsafe), send the queued output frame, or send a fresh RC frame,
in every case advancing lastRCFrameTime to now. -/
def SysState.run (s : SysState) (now nowMs : ℕ) : SysState :=
  let s1 := if s.uart.transmitting && s.uart.isTXComplete then
      { s with uart := s.uart.switchToRX } else s
  let s2 := if !s1.uart.transmitting then s1.drain nowMs else s1
  if !s2.uart.transmitting then
    let r := s2.isTimeToSendRC now
    let s3 := r.2
    if r.1 then
      if CDCParser.isFailsafe s3.cdcLastRCFrameTime now then
        { s3 with task := { s3.task with lastRCFrameTime := now } }
      else if s3.task.outputFramePending then
        { s3 with
            uart := s3.uart.transmit
              (s3.task.outputFrameBuffer.take s3.task.outputFrameLength),
            task := { s3.task with
              outputFramePending := false, lastRCFrameTime := now } }
      else
        let s4 := s3.sendRCFrame
        { s4 with task := { s4.task with lastRCFrameTime := now } }
    else s3
  else s2


lemma crc8_lut_spec : ∀ c < 256, crc8_lut.getD c 0 = crc8_rounds 8 c := by decide

lemma crc8_lut_lt : ∀ c < 256, crc8_lut.getD c 0 < 256 := by decide

lemma crc8_fold_eq (data : List ℕ) : ∀ crc < 256,
    data.foldl (fun crc b => crc8_lut.getD ((crc ^^^ b) % 256) 0) crc
      = data.foldl (fun c b => crc8_rounds 8 ((c ^^^ b) % 256)) crc := by
  induction data with
  | nil => intro crc _; rfl
  | cons b rest ih =>
      intro crc _
      simp only [List.foldl_cons]
      have hidx : (crc ^^^ b) % 256 < 256 := Nat.mod_lt _ (by norm_num)
      rw [← crc8_lut_spec _ hidx]
      exact ih _ (crc8_lut_lt _ hidx)

/-- C9: for every byte sequence, the table-driven crsf_crc8 and the
iterative bit-at-a-time CrsfCrc::calc with initial crc 0 return the same
8-bit result. -/
theorem crc8_table_iterative_agree (data : List ℕ) :
    crsf_crc8 data = CrsfCrc.calc data 0 := by
  unfold crsf_crc8 CrsfCrc.calc
  exact crc8_fold_eq data 0 (by norm_num)

lemma lor_shl (b t : ℕ) {a : ℕ} (h : a < 2 ^ t) :
    a ||| b <<< t = b <<< t + a := by
  have hmod : (b <<< t + a) % 2 ^ t = a := by
    rw [Nat.shiftLeft_eq, Nat.mul_comm, Nat.mul_add_mod, Nat.mod_eq_of_lt h]
  have hdiv : (b <<< t + a) >>> t = b := by
    rw [Nat.shiftLeft_eq, Nat.shiftRight_eq_div_pow, Nat.mul_comm,
      Nat.mul_add_div (Nat.two_pow_pos t), Nat.div_eq_of_lt h, Nat.add_zero]
  apply Nat.eq_of_testBit_eq
  intro i
  rcases Nat.lt_or_ge i t with hi | hi
  · have h2 := congrArg (fun x => x.testBit i) hmod
    simp only [Nat.testBit_mod_two_pow, hi, decide_True, Bool.true_and] at h2
    rw [Nat.testBit_or, h2]
    have h1 : (b <<< t).testBit i = false := by
      rw [Nat.testBit_shiftLeft]
      simp [Nat.not_le.mpr hi]
    rw [h1, Bool.or_false]
  · have h3 := congrArg (fun x => x.testBit (i - t)) hdiv
    simp only [Nat.testBit_shiftRight] at h3
    have hit : t + (i - t) = i := by omega
    rw [hit] at h3
    have ha : a.testBit i = false :=
      Nat.testBit_lt_two_pow
        (Nat.lt_of_lt_of_le h (Nat.pow_le_pow_right (by norm_num) hi))
    rw [Nat.testBit_or, h3, ha, Bool.false_or, Nat.testBit_shiftLeft]
    simp [hi]

lemma and_255 (x : ℕ) : x &&& 255 = x % 256 := by
  have := Nat.and_pow_two_sub_one_eq_mod x 8
  norm_num at this
  exact this

lemma and_2047 (x : ℕ) : x &&& 2047 = x % 2048 := by
  have := Nat.and_pow_two_sub_one_eq_mod x 11
  norm_num at this
  exact this

lemma lor_mul_eq_add (b t : ℕ) {a : ℕ} (h : a < 2 ^ t) :
    a ||| b * 2 ^ t = a + b * 2 ^ t := by
  have h2 := lor_shl b t h
  rw [Nat.shiftLeft_eq] at h2
  rw [h2, Nat.add_comm]

/-- C1: for every array of 16 channel values, each in the range 0..2047,
crsf_pack_channels produces 22 bytes and crsf_unpack_channels applied to
that output returns exactly the original 16 values. -/
theorem crsf_pack_unpack_roundtrip (ch : ℕ → ℕ) (h : ∀ i < 16, ch i ≤ 2047) :
    (crsf_pack_channels ch).length = 22 ∧
      crsf_unpack_channels (fun i => (crsf_pack_channels ch).getD i 0) =
        [ch 0, ch 1, ch 2, ch 3, ch 4, ch 5, ch 6, ch 7,
         ch 8, ch 9, ch 10, ch 11, ch 12, ch 13, ch 14, ch 15] := by
  have h0 := h 0 (by norm_num)
  have h1 := h 1 (by norm_num)
  have h2 := h 2 (by norm_num)
  have h3 := h 3 (by norm_num)
  have h4 := h 4 (by norm_num)
  have h5 := h 5 (by norm_num)
  have h6 := h 6 (by norm_num)
  have h7 := h 7 (by norm_num)
  have h8 := h 8 (by norm_num)
  have h9 := h 9 (by norm_num)
  have h10 := h 10 (by norm_num)
  have h11 := h 11 (by norm_num)
  have h12 := h 12 (by norm_num)
  have h13 := h 13 (by norm_num)
  have h14 := h 14 (by norm_num)
  have h15 := h 15 (by norm_num)
  refine ⟨rfl, ?_⟩
  simp only [crsf_unpack_channels, crsf_pack_channels,
    List.getD_cons_succ, List.getD_cons_zero]
  simp only [u8, and_255, and_2047, Nat.shiftLeft_eq, Nat.shiftRight_eq_div_pow]
  simp only [List.cons.injEq, and_true]
  refine ⟨?_, ?_, ?_, ?_, ?_, ?_, ?_, ?_, ?_, ?_, ?_, ?_, ?_, ?_, ?_, ?_⟩
  · have bi : ch 0 / 2 ^ 8 < 2 ^ 3 := by simp only [Nat.reducePow]; omega
    rw [lor_mul_eq_add _ _ bi]
    have bo : ch 0 % 256 % 256 < 2 ^ 8 := by simp only [Nat.reducePow]; omega
    rw [lor_mul_eq_add _ _ bo]
    simp only [Nat.reducePow]; omega
  · have bi1 : ch 0 / 2 ^ 8 < 2 ^ 3 := by simp only [Nat.reducePow]; omega
    rw [lor_mul_eq_add _ _ bi1]
    have bi2 : ch 1 / 2 ^ 5 < 2 ^ 6 := by simp only [Nat.reducePow]; omega
    rw [lor_mul_eq_add _ _ bi2]
    have bo : (ch 0 / 2 ^ 8 + ch 1 * 2 ^ 3) % 256 / 2 ^ 3 < 2 ^ 5 := by
      simp only [Nat.reducePow]; omega
    rw [lor_mul_eq_add _ _ bo]
    simp only [Nat.reducePow]; omega
  · have bi1 : ch 1 / 2 ^ 5 < 2 ^ 6 := by simp only [Nat.reducePow]; omega
    rw [lor_mul_eq_add _ _ bi1]
    have bi2 : ch 2 / 2 ^ 10 < 2 ^ 1 := by simp only [Nat.reducePow]; omega
    rw [lor_mul_eq_add _ _ bi2]
    have bo1 : (ch 1 / 2 ^ 5 + ch 2 * 2 ^ 6) % 256 / 2 ^ 6 < 2 ^ 2 := by
      simp only [Nat.reducePow]; omega
    rw [lor_mul_eq_add _ _ bo1]
    have bo2 : (ch 1 / 2 ^ 5 + ch 2 * 2 ^ 6) % 256 / 2 ^ 6 +
        ch 2 / 2 ^ 2 % 256 % 256 * 2 ^ 2 < 2 ^ 10 := by
      simp only [Nat.reducePow]; omega
    rw [lor_mul_eq_add _ _ bo2]
    simp only [Nat.reducePow]; omega
  · have bi1 : ch 2 / 2 ^ 10 < 2 ^ 1 := by simp only [Nat.reducePow]; omega
    rw [lor_mul_eq_add _ _ bi1]
    have bi2 : ch 3 / 2 ^ 7 < 2 ^ 4 := by simp only [Nat.reducePow]; omega
    rw [lor_mul_eq_add _ _ bi2]
    have bo : (ch 2 / 2 ^ 10 + ch 3 * 2 ^ 1) % 256 / 2 ^ 1 < 2 ^ 7 := by
      simp only [Nat.reducePow]; omega
    rw [lor_mul_eq_add _ _ bo]
    simp only [Nat.reducePow]; omega
  · have bi1 : ch 3 / 2 ^ 7 < 2 ^ 4 := by simp only [Nat.reducePow]; omega
    rw [lor_mul_eq_add _ _ bi1]
    have bi2 : ch 4 / 2 ^ 4 < 2 ^ 7 := by simp only [Nat.reducePow]; omega
    rw [lor_mul_eq_add _ _ bi2]
    have bo : (ch 3 / 2 ^ 7 + ch 4 * 2 ^ 4) % 256 / 2 ^ 4 < 2 ^ 4 := by
      simp only [Nat.reducePow]; omega
    rw [lor_mul_eq_add _ _ bo]
    simp only [Nat.reducePow]; omega
  · have bi1 : ch 4 / 2 ^ 4 < 2 ^ 7 := by simp only [Nat.reducePow]; omega
    rw [lor_mul_eq_add _ _ bi1]
    have bi2 : ch 5 / 2 ^ 9 < 2 ^ 2 := by simp only [Nat.reducePow]; omega
    rw [lor_mul_eq_add _ _ bi2]
    have bo1 : (ch 4 / 2 ^ 4 + ch 5 * 2 ^ 7) % 256 / 2 ^ 7 < 2 ^ 1 := by
      simp only [Nat.reducePow]; omega
    rw [lor_mul_eq_add _ _ bo1]
    have bo2 : (ch 4 / 2 ^ 4 + ch 5 * 2 ^ 7) % 256 / 2 ^ 7 +
        ch 5 / 2 ^ 1 % 256 % 256 * 2 ^ 1 < 2 ^ 9 := by
      simp only [Nat.reducePow]; omega
    rw [lor_mul_eq_add _ _ bo2]
    simp only [Nat.reducePow]; omega
  · have bi1 : ch 5 / 2 ^ 9 < 2 ^ 2 := by simp only [Nat.reducePow]; omega
    rw [lor_mul_eq_add _ _ bi1]
    have bi2 : ch 6 / 2 ^ 6 < 2 ^ 5 := by simp only [Nat.reducePow]; omega
    rw [lor_mul_eq_add _ _ bi2]
    have bo : (ch 5 / 2 ^ 9 + ch 6 * 2 ^ 2) % 256 / 2 ^ 2 < 2 ^ 6 := by
      simp only [Nat.reducePow]; omega
    rw [lor_mul_eq_add _ _ bo]
    simp only [Nat.reducePow]; omega
  · have bi1 : ch 6 / 2 ^ 6 < 2 ^ 5 := by simp only [Nat.reducePow]; omega
    rw [lor_mul_eq_add _ _ bi1]
    have bo : (ch 6 / 2 ^ 6 + ch 7 * 2 ^ 5) % 256 / 2 ^ 5 < 2 ^ 3 := by
      simp only [Nat.reducePow]; omega
    rw [lor_mul_eq_add _ _ bo]
    simp only [Nat.reducePow]; omega
  · have bi : ch 8 / 2 ^ 8 < 2 ^ 3 := by simp only [Nat.reducePow]; omega
    rw [lor_mul_eq_add _ _ bi]
    have bo : ch 8 % 256 % 256 < 2 ^ 8 := by simp only [Nat.reducePow]; omega
    rw [lor_mul_eq_add _ _ bo]
    simp only [Nat.reducePow]; omega
  · have bi1 : ch 8 / 2 ^ 8 < 2 ^ 3 := by simp only [Nat.reducePow]; omega
    rw [lor_mul_eq_add _ _ bi1]
    have bi2 : ch 9 / 2 ^ 5 < 2 ^ 6 := by simp only [Nat.reducePow]; omega
    rw [lor_mul_eq_add _ _ bi2]
    have bo : (ch 8 / 2 ^ 8 + ch 9 * 2 ^ 3) % 256 / 2 ^ 3 < 2 ^ 5 := by
      simp only [Nat.reducePow]; omega
    rw [lor_mul_eq_add _ _ bo]
    simp only [Nat.reducePow]; omega
  · have bi1 : ch 9 / 2 ^ 5 < 2 ^ 6 := by simp only [Nat.reducePow]; omega
    rw [lor_mul_eq_add _ _ bi1]
    have bi2 : ch 10 / 2 ^ 10 < 2 ^ 1 := by simp only [Nat.reducePow]; omega
    rw [lor_mul_eq_add _ _ bi2]
    have bo1 : (ch 9 / 2 ^ 5 + ch 10 * 2 ^ 6) % 256 / 2 ^ 6 < 2 ^ 2 := by
      simp only [Nat.reducePow]; omega
    rw [lor_mul_eq_add _ _ bo1]
    have bo2 : (ch 9 / 2 ^ 5 + ch 10 * 2 ^ 6) % 256 / 2 ^ 6 +
        ch 10 / 2 ^ 2 % 256 % 256 * 2 ^ 2 < 2 ^ 10 := by
      simp only [Nat.reducePow]; omega
    rw [lor_mul_eq_add _ _ bo2]
    simp only [Nat.reducePow]; omega
  · have bi1 : ch 10 / 2 ^ 10 < 2 ^ 1 := by simp only [Nat.reducePow]; omega
    rw [lor_mul_eq_add _ _ bi1]
    have bi2 : ch 11 / 2 ^ 7 < 2 ^ 4 := by simp only [Nat.reducePow]; omega
    rw [lor_mul_eq_add _ _ bi2]
    have bo : (ch 10 / 2 ^ 10 + ch 11 * 2 ^ 1) % 256 / 2 ^ 1 < 2 ^ 7 := by
      simp only [Nat.reducePow]; omega
    rw [lor_mul_eq_add _ _ bo]
    simp only [Nat.reducePow]; omega
  · have bi1 : ch 11 / 2 ^ 7 < 2 ^ 4 := by simp only [Nat.reducePow]; omega
    rw [lor_mul_eq_add _ _ bi1]
    have bi2 : ch 12 / 2 ^ 4 < 2 ^ 7 := by simp only [Nat.reducePow]; omega
    rw [lor_mul_eq_add _ _ bi2]
    have bo : (ch 11 / 2 ^ 7 + ch 12 * 2 ^ 4) % 256 / 2 ^ 4 < 2 ^ 4 := by
      simp only [Nat.reducePow]; omega
    rw [lor_mul_eq_add _ _ bo]
    simp only [Nat.reducePow]; omega
  · have bi1 : ch 12 / 2 ^ 4 < 2 ^ 7 := by simp only [Nat.reducePow]; omega
    rw [lor_mul_eq_add _ _ bi1]
    have bi2 : ch 13 / 2 ^ 9 < 2 ^ 2 := by simp only [Nat.reducePow]; omega
    rw [lor_mul_eq_add _ _ bi2]
    have bo1 : (ch 12 / 2 ^ 4 + ch 13 * 2 ^ 7) % 256 / 2 ^ 7 < 2 ^ 1 := by
      simp only [Nat.reducePow]; omega
    rw [lor_mul_eq_add _ _ bo1]
    have bo2 : (ch 12 / 2 ^ 4 + ch 13 * 2 ^ 7) % 256 / 2 ^ 7 +
        ch 13 / 2 ^ 1 % 256 % 256 * 2 ^ 1 < 2 ^ 9 := by
      simp only [Nat.reducePow]; omega
    rw [lor_mul_eq_add _ _ bo2]
    simp only [Nat.reducePow]; omega
  · have bi1 : ch 13 / 2 ^ 9 < 2 ^ 2 := by simp only [Nat.reducePow]; omega
    rw [lor_mul_eq_add _ _ bi1]
    have bi2 : ch 14 / 2 ^ 6 < 2 ^ 5 := by simp only [Nat.reducePow]; omega
    rw [lor_mul_eq_add _ _ bi2]
    have bo : (ch 13 / 2 ^ 9 + ch 14 * 2 ^ 2) % 256 / 2 ^ 2 < 2 ^ 6 := by
      simp only [Nat.reducePow]; omega
    rw [lor_mul_eq_add _ _ bo]
    simp only [Nat.reducePow]; omega
  · have bi1 : ch 14 / 2 ^ 6 < 2 ^ 5 := by simp only [Nat.reducePow]; omega
    rw [lor_mul_eq_add _ _ bi1]
    have bo : (ch 14 / 2 ^ 6 + ch 15 * 2 ^ 5) % 256 / 2 ^ 5 < 2 ^ 3 := by
      simp only [Nat.reducePow]; omega
    rw [lor_mul_eq_add _ _ bo]
    simp only [Nat.reducePow]; omega

theorem crsf_pack_unpack_roundtrip_witness :
    (crsf_pack_channels (fun j => 127 * j + 3)).length = 22 ∧
      crsf_unpack_channels
          (fun i => (crsf_pack_channels (fun j => 127 * j + 3)).getD i 0) =
        [3, 130, 257, 384, 511, 638, 765, 892,
         1019, 1146, 1273, 1400, 1527, 1654, 1781, 1908] := by
  have h := crsf_pack_unpack_roundtrip (fun j => 127 * j + 3) (by decide)
  simpa using h

/-- C10: RCChannels::setChannel takes a 1-based channel number, leaves all
channel values unchanged when the argument is 0 or greater than 16, and
otherwise writes slot channel-1; RCChannels::getChannelCRSF takes a 0-based
index and returns the center value 992 for every index at or beyond 16;
neither traps on out-of-range arguments. -/
theorem rc_channels_accessors :
    (∀ chs channel us, channel < 1 ∨ channel > 16 →
        RCChannels.setChannel chs channel us = chs) ∧
    (∀ chs channel us, 1 ≤ channel → channel ≤ 16 →
        RCChannels.setChannel chs channel us
          = chs.set (channel - 1) (RCChannels.microsecondsToCRSF us)) ∧
    (∀ chs channel, 16 ≤ channel →
        RCChannels.getChannelCRSF chs channel = 992) := by
  refine ⟨?_, ?_, ?_⟩
  · intro chs channel us h
    unfold RCChannels.setChannel
    rw [if_pos h]
  · intro chs channel us h1 h2
    unfold RCChannels.setChannel
    rw [if_neg (by omega)]
  · intro chs channel h
    unfold RCChannels.getChannelCRSF
    rw [if_pos h]
    rfl

theorem rc_channels_accessors_witness :
    RCChannels.setChannel RCChannels.centerAll 17 1500 = RCChannels.centerAll ∧
      RCChannels.setChannel RCChannels.centerAll 1 1500
        = RCChannels.centerAll.set 0 (RCChannels.microsecondsToCRSF 1500) ∧
      RCChannels.getChannelCRSF RCChannels.centerAll 16 = 992 :=
  ⟨rc_channels_accessors.1 _ 17 1500 (by norm_num),
   rc_channels_accessors.2.1 _ 1 1500 (by norm_num) (by norm_num),
   rc_channels_accessors.2.2 _ 16 (by norm_num)⟩

lemma i32_sub_mid (a b : ℤ) : i32 (a - i32 b) = i32 (a - b) := by
  unfold i32
  omega

lemma getAdjustedPeriod_valid (r l : ℤ) (lu : ℕ) :
    (ModuleSync.mk r l lu true).getAdjustedPeriod
      = ((min 50000 (max 1000 (i32 (r + l)))).toNat,
         ModuleSync.mk r (i32 (l - (min 50000 (max 1000 (i32 (r + l))) - r)))
           lu true) := by
  have hclamp :
      (if i32 (r + l) < CRSF_MIN_PERIOD_US then CRSF_MIN_PERIOD_US
       else if i32 (r + l) > CRSF_MAX_PERIOD_US then CRSF_MAX_PERIOD_US
       else i32 (r + l))
        = min 50000 (max 1000 (i32 (r + l))) := by
    unfold CRSF_MIN_PERIOD_US CRSF_MAX_PERIOD_US
    split_ifs <;> omega
  unfold ModuleSync.getAdjustedPeriod
  simp only [Bool.not_true, Bool.false_eq_true, if_false, hclamp, i32_sub_mid]

/-- C3: ModuleSync::getAdjustedPeriod returns the fixed default 4000 us
whenever updateTiming has never run; otherwise it returns refreshRate +
inputLag (int32 arithmetic) clamped into 1000..50000 us and decrements
inputLag by exactly the applied portion, the returned value minus
refreshRate, leaving the other fields untouched; in particular with
refresh period 2000 us and offset 0 it returns 2000 and the state is
unchanged. -/
theorem module_sync_adjusted_period :
    (∀ s : ModuleSync, s.valid = false →
        s.getAdjustedPeriod = (4000, s)) ∧
    (∀ s : ModuleSync, s.valid = true →
        s.getAdjustedPeriod.1
            = (min 50000 (max 1000 (i32 (s.refreshRate + s.inputLag)))).toNat ∧
          s.getAdjustedPeriod.2.inputLag
            = i32 (s.inputLag - ((s.getAdjustedPeriod.1 : ℤ) - s.refreshRate)) ∧
          s.getAdjustedPeriod.2.refreshRate = s.refreshRate ∧
          s.getAdjustedPeriod.2.lastUpdate = s.lastUpdate ∧
          s.getAdjustedPeriod.2.valid = true) ∧
    (∀ s : ModuleSync, s.valid = true → s.refreshRate = 2000 →
        s.inputLag = 0 →
        s.getAdjustedPeriod.1 = 2000 ∧ s.getAdjustedPeriod.2 = s) := by
  refine ⟨?_, ?_, ?_⟩
  · intro s hv
    unfold ModuleSync.getAdjustedPeriod
    rw [hv]
    rfl
  · intro s hv
    obtain ⟨r, l, lu, v⟩ := s
    simp only at hv
    subst hv
    rw [getAdjustedPeriod_valid]
    have hge : (0 : ℤ) ≤ min 50000 (max 1000 (i32 (r + l))) := by omega
    refine ⟨rfl, ?_, rfl, rfl, rfl⟩
    simp only [Int.toNat_of_nonneg hge]
  · intro s hv hr hl
    obtain ⟨r, l, lu, v⟩ := s
    simp only at hv hr hl
    subst hv; subst hr; subst hl
    rw [getAdjustedPeriod_valid]
    have h1 : i32 (2000 + 0) = 2000 := by unfold i32; omega
    rw [h1]
    norm_num
    unfold i32; omega

theorem module_sync_adjusted_period_witness :
    ModuleSync.init.getAdjustedPeriod = (4000, ModuleSync.init) ∧
      (ModuleSync.mk 2000 100 5 true).getAdjustedPeriod.1
        = (min 50000 (max 1000 (i32 (2000 + 100)))).toNat ∧
      (ModuleSync.mk 2000 0 0 true).getAdjustedPeriod.1 = 2000 :=
  ⟨module_sync_adjusted_period.1 ModuleSync.init rfl,
   ((module_sync_adjusted_period.2.1 (ModuleSync.mk 2000 100 5 true) rfl).1),
   (module_sync_adjusted_period.2.2 (ModuleSync.mk 2000 0 0 true) rfl rfl rfl).1⟩

lemma cdc_processFrame_forward (fwd : List ℕ → Bool) (now : ℕ)
    (s : CDCParser) (frame : List ℕ)
    (hge : 4 ≤ frame.length)
    (hlen : frame.getD 1 0 + 2 = frame.length)
    (hcrc : crcOk frame = true) :
    (CDCParser.processFrame fwd now s frame).2
      = if frame.getD 2 0 = CRSF_FRAMETYPE_PING_DEVICES ∨
            frame.getD 2 0 = CRSF_FRAMETYPE_PARAMETER_READ ∨
            frame.getD 2 0 = CRSF_FRAMETYPE_PARAMETER_WRITE ∨
            frame.getD 2 0 = CRSF_FRAMETYPE_COMMAND
        then [frame] else [] := by
  have h4 : ¬ frame.length < 4 := by omega
  have hL : ¬ (frame.getD 1 0 + 2 ≠ frame.length) := fun h => h hlen
  simp only [crcOk, beq_iff_eq] at hcrc
  have hC : ¬ (crsf_crc8 ((frame.drop 2).take (frame.getD 1 0 - 1))
      ≠ frame.getD (frame.length - 1) 0) := fun h => h hcrc
  simp only [CDCParser.processFrame, if_neg h4, if_neg hL, if_neg hC]
  by_cases hRC : frame.getD 2 0 = CRSF_FRAMETYPE_RC_CHANNELS
  · have hne : ¬ (frame.getD 2 0 = CRSF_FRAMETYPE_PING_DEVICES ∨
        frame.getD 2 0 = CRSF_FRAMETYPE_PARAMETER_READ ∨
        frame.getD 2 0 = CRSF_FRAMETYPE_PARAMETER_WRITE ∨
        frame.getD 2 0 = CRSF_FRAMETYPE_COMMAND) := by
      rw [hRC]
      unfold CRSF_FRAMETYPE_RC_CHANNELS CRSF_FRAMETYPE_PING_DEVICES
        CRSF_FRAMETYPE_PARAMETER_READ CRSF_FRAMETYPE_PARAMETER_WRITE
        CRSF_FRAMETYPE_COMMAND
      norm_num
    rw [if_pos hRC, if_neg hne]
    split_ifs <;> rfl
  · rw [if_neg hRC]
    by_cases hF : frame.getD 2 0 = CRSF_FRAMETYPE_PING_DEVICES ∨
        frame.getD 2 0 = CRSF_FRAMETYPE_PARAMETER_READ ∨
        frame.getD 2 0 = CRSF_FRAMETYPE_PARAMETER_WRITE ∨
        frame.getD 2 0 = CRSF_FRAMETYPE_COMMAND
    · rw [if_pos hF, if_pos hF]
      cases fwd frame <;> simp
    · rw [if_neg hF, if_neg hF]

lemma crsf_processFrame_forward (s : CRSFParser) (frame : List ℕ)
    (hge : 4 ≤ frame.length)
    (hlen : frame.getD 1 0 + 2 = frame.length)
    (hcrc : crcOk frame = true) :
    (CRSFParser.processFrame s frame).2.1
      = if frame.getD 2 0 = CRSF_FRAMETYPE_RADIO_ID then [] else [frame] := by
  have h4 : ¬ frame.length < 4 := by omega
  have hL : ¬ (frame.getD 1 0 + 2 ≠ frame.length) := fun h => h hlen
  simp only [crcOk, beq_iff_eq] at hcrc
  have hC : ¬ (crsf_crc8 ((frame.drop 2).take (frame.getD 1 0 - 1))
      ≠ frame.getD (frame.length - 1) 0) := fun h => h hcrc
  simp only [CRSFParser.processFrame, if_neg h4, if_neg hL, if_neg hC]
  split_ifs <;> rfl

/-- C5: for every CRC-valid assembled frame, the host-link parser invokes
its forward callback exactly once with the identical frame bytes iff the
frame type is 0x28, 0x2C, 0x2D or 0x32, and the module-link parser
invokes its to-CDC callback exactly once with the identical frame bytes
iff the type is not the RADIO_ID timing type; in particular byte-by-byte
injection of the valid 6-byte ping into the host-link parser yields
exactly one forward invocation carrying those identical 6 bytes. -/
theorem parser_forwarding_policy :
    (∀ (fwd : List ℕ → Bool) (now : ℕ) (s : CDCParser) (frame : List ℕ),
        4 ≤ frame.length → frame.getD 1 0 + 2 = frame.length →
        crcOk frame = true →
        (CDCParser.processFrame fwd now s frame).2
          = if frame.getD 2 0 = CRSF_FRAMETYPE_PING_DEVICES ∨
                frame.getD 2 0 = CRSF_FRAMETYPE_PARAMETER_READ ∨
                frame.getD 2 0 = CRSF_FRAMETYPE_PARAMETER_WRITE ∨
                frame.getD 2 0 = CRSF_FRAMETYPE_COMMAND
            then [frame] else []) ∧
    (∀ (s : CRSFParser) (frame : List ℕ),
        4 ≤ frame.length → frame.getD 1 0 + 2 = frame.length →
        crcOk frame = true →
        (CRSFParser.processFrame s frame).2.1
          = if frame.getD 2 0 = CRSF_FRAMETYPE_RADIO_ID
            then [] else [frame]) ∧
    (∀ b : Bool,
        (CDCParser.processBytes (fun _ => b) 0
            (CDCParser.init RCChannels.centerAll)
            crsf_build_ping_frame).forwarded = [crsf_build_ping_frame]) := by
  refine ⟨cdc_processFrame_forward, crsf_processFrame_forward, ?_⟩
  intro b
  cases b <;> decide

theorem parser_forwarding_policy_witness :
    ((CDCParser.processFrame (fun _ => true) 0
        (CDCParser.init RCChannels.centerAll) crsf_build_ping_frame).2
      = if crsf_build_ping_frame.getD 2 0 = CRSF_FRAMETYPE_PING_DEVICES ∨
            crsf_build_ping_frame.getD 2 0 = CRSF_FRAMETYPE_PARAMETER_READ ∨
            crsf_build_ping_frame.getD 2 0 = CRSF_FRAMETYPE_PARAMETER_WRITE ∨
            crsf_build_ping_frame.getD 2 0 = CRSF_FRAMETYPE_COMMAND
        then [crsf_build_ping_frame] else []) ∧
      ((CRSFParser.processFrame CRSFParser.init crsf_build_ping_frame).2.1
        = if crsf_build_ping_frame.getD 2 0 = CRSF_FRAMETYPE_RADIO_ID
          then [] else [crsf_build_ping_frame]) :=
  ⟨parser_forwarding_policy.1 (fun _ => true) 0
      (CDCParser.init RCChannels.centerAll) crsf_build_ping_frame
      (by decide) (by decide) (by decide),
   parser_forwarding_policy.2.1 CRSFParser.init crsf_build_ping_frame
      (by decide) (by decide) (by decide)⟩

lemma cdc_processFrame_crc_mismatch (fwd : List ℕ → Bool) (now : ℕ)
    (s : CDCParser) (frame : List ℕ)
    (hge : 4 ≤ frame.length)
    (hlen : frame.getD 1 0 + 2 = frame.length)
    (hcrc : crcOk frame = false) :
    CDCParser.processFrame fwd now s frame
      = ({ s with crcErrors := s.crcErrors + 1 }, []) := by
  have h4 : ¬ frame.length < 4 := by omega
  have hL : ¬ (frame.getD 1 0 + 2 ≠ frame.length) := fun h => h hlen
  simp only [crcOk, beq_eq_false_iff_ne, ne_eq] at hcrc
  simp only [CDCParser.processFrame, if_neg h4, if_neg hL, if_pos hcrc]

lemma crsf_processFrame_crc_mismatch (s : CRSFParser) (frame : List ℕ)
    (hge : 4 ≤ frame.length)
    (hlen : frame.getD 1 0 + 2 = frame.length)
    (hcrc : crcOk frame = false) :
    CRSFParser.processFrame s frame
      = ({ s with crcErrors := s.crcErrors + 1 }, [], []) := by
  have h4 : ¬ frame.length < 4 := by omega
  have hL : ¬ (frame.getD 1 0 + 2 ≠ frame.length) := fun h => h hlen
  simp only [crcOk, beq_eq_false_iff_ne, ne_eq] at hcrc
  simp only [CRSFParser.processFrame, if_neg h4, if_neg hL, if_pos hcrc]

/-- C6: a CRC mismatch on an assembled frame makes each parser increment
its crcErrors counter by one and change nothing else: no channel value,
failsafe timestamp, framesReceived counter or callback invocation; in
particular the ping injection with a corrupted final byte yields zero
forward invocations and exactly one CRC error. -/
theorem crc_mismatch_increments_only_crc_errors :
    (∀ (fwd : List ℕ → Bool) (now : ℕ) (s : CDCParser) (frame : List ℕ),
        4 ≤ frame.length → frame.getD 1 0 + 2 = frame.length →
        crcOk frame = false →
        CDCParser.processFrame fwd now s frame
          = ({ s with crcErrors := s.crcErrors + 1 }, [])) ∧
    (∀ (s : CRSFParser) (frame : List ℕ),
        4 ≤ frame.length → frame.getD 1 0 + 2 = frame.length →
        crcOk frame = false →
        CRSFParser.processFrame s frame
          = ({ s with crcErrors := s.crcErrors + 1 }, [], [])) ∧
    ((CDCParser.processBytes (fun _ => true) 0
        (CDCParser.init RCChannels.centerAll)
        (crsf_build_ping_frame.take 5
          ++ [(crsf_crc8 [CRSF_FRAMETYPE_PING_DEVICES, 0x00,
                CRSF_ADDRESS_RADIO_TRANSMITTER] + 1) % 256])).forwarded = []
      ∧ (CDCParser.processBytes (fun _ => true) 0
          (CDCParser.init RCChannels.centerAll)
          (crsf_build_ping_frame.take 5
            ++ [(crsf_crc8 [CRSF_FRAMETYPE_PING_DEVICES, 0x00,
                  CRSF_ADDRESS_RADIO_TRANSMITTER] + 1) % 256])).parser.crcErrors
          = 1
      ∧ (CDCParser.processBytes (fun _ => true) 0
          (CDCParser.init RCChannels.centerAll)
          (crsf_build_ping_frame.take 5
            ++ [(crsf_crc8 [CRSF_FRAMETYPE_PING_DEVICES, 0x00,
                  CRSF_ADDRESS_RADIO_TRANSMITTER] + 1) % 256])).parser.framesReceived
          = 0
      ∧ (CDCParser.processBytes (fun _ => true) 0
          (CDCParser.init RCChannels.centerAll)
          (crsf_build_ping_frame.take 5
            ++ [(crsf_crc8 [CRSF_FRAMETYPE_PING_DEVICES, 0x00,
                  CRSF_ADDRESS_RADIO_TRANSMITTER] + 1) % 256])).parser.channels
          = RCChannels.centerAll
      ∧ (CDCParser.processBytes (fun _ => true) 0
          (CDCParser.init RCChannels.centerAll)
          (crsf_build_ping_frame.take 5
            ++ [(crsf_crc8 [CRSF_FRAMETYPE_PING_DEVICES, 0x00,
                  CRSF_ADDRESS_RADIO_TRANSMITTER] + 1) % 256])).parser.lastRCFrameTime
          = 0) := by
  refine ⟨cdc_processFrame_crc_mismatch, crsf_processFrame_crc_mismatch, ?_⟩
  decide

theorem crc_mismatch_increments_only_crc_errors_witness :
    CDCParser.processFrame (fun _ => true) 0
        (CDCParser.init RCChannels.centerAll)
        [0xC8, 0x04, 0x28, 0x00, 0xEA, 0x55]
      = ({ CDCParser.init RCChannels.centerAll with crcErrors := 1 }, []) ∧
      CRSFParser.processFrame CRSFParser.init
          [0xC8, 0x04, 0x28, 0x00, 0xEA, 0x55]
        = ({ CRSFParser.init with crcErrors := 1 }, [], []) :=
  ⟨crc_mismatch_increments_only_crc_errors.1 (fun _ => true) 0
      (CDCParser.init RCChannels.centerAll)
      [0xC8, 0x04, 0x28, 0x00, 0xEA, 0x55]
      (by decide) (by decide) (by decide),
   crc_mismatch_increments_only_crc_errors.2.1 CRSFParser.init
      [0xC8, 0x04, 0x28, 0x00, 0xEA, 0x55]
      (by decide) (by decide) (by decide)⟩

lemma cdc_processFrame_rc_timestamp (fwd : List ℕ → Bool) (now : ℕ)
    (s : CDCParser) (frame : List ℕ)
    (hge : 4 ≤ frame.length)
    (hlen : frame.getD 1 0 + 2 = frame.length)
    (hcrc : crcOk frame = true)
    (hty : frame.getD 2 0 = CRSF_FRAMETYPE_RC_CHANNELS)
    (hfl : frame.getD 1 0 = 24) :
    (CDCParser.processFrame fwd now s frame).1.lastRCFrameTime = now := by
  have h4 : ¬ frame.length < 4 := by omega
  have hL : ¬ (frame.getD 1 0 + 2 ≠ frame.length) := fun h => h hlen
  simp only [crcOk, beq_iff_eq] at hcrc
  have hC : ¬ (crsf_crc8 ((frame.drop 2).take (frame.getD 1 0 - 1))
      ≠ frame.getD (frame.length - 1) 0) := fun h => h hcrc
  have hPL : frame.getD 1 0 - 2 = CRSF_RC_CHANNELS_PACKED_LEN := by
    rw [hfl]; rfl
  simp only [CDCParser.processFrame, if_neg h4, if_neg hL, if_neg hC,
    if_pos hty, if_pos hPL]

/-- C2 (amended): CDCParser::isFailsafe is true whenever no RC frame has
ever been recorded (lastRCFrameTime 0); decoding a valid RC channel
frame at micros() value T records lastRCFrameTime = T; and for a nonzero
recorded time T and uint32 query times T <= now < 2^32, isFailsafe is
false exactly when now - T does not exceed 100000 microseconds.  (When
the decode happens exactly at micros() tick 0 the recorded time is the
never-updated sentinel 0 and failsafe stays active; see the
counterexample.) -/
theorem cdc_failsafe_spec :
    (∀ now, CDCParser.isFailsafe 0 now = true) ∧
    (∀ (fwd : List ℕ → Bool) (now : ℕ) (s : CDCParser) (frame : List ℕ),
        4 ≤ frame.length → frame.getD 1 0 + 2 = frame.length →
        crcOk frame = true → frame.getD 2 0 = CRSF_FRAMETYPE_RC_CHANNELS →
        frame.getD 1 0 = 24 →
        (CDCParser.processFrame fwd now s frame).1.lastRCFrameTime = now) ∧
    (∀ T now : ℕ, T ≠ 0 → T < 2 ^ 32 → T ≤ now → now < 2 ^ 32 →
        (CDCParser.isFailsafe T now = false ↔ now - T ≤ 100000)) := by
  refine ⟨?_, cdc_processFrame_rc_timestamp, ?_⟩
  · intro now
    simp [CDCParser.isFailsafe]
  · intro T now hT hT32 hle hnow32
    unfold CDCParser.isFailsafe FAILSAFE_TIMEOUT_US
    rw [if_neg hT]
    have he : (now + 2 ^ 32 - T) % 2 ^ 32 = now - T := by omega
    rw [he]
    simp only [decide_eq_false_iff_not, Nat.not_lt]

theorem cdc_failsafe_spec_witness :
    CDCParser.isFailsafe 0 7 = true ∧
      (CDCParser.processFrame (fun _ => true) 12345
          (CDCParser.init RCChannels.centerAll)
          (crsf_build_rc_frame (fun _ => 992))).1.lastRCFrameTime = 12345 ∧
      (CDCParser.isFailsafe 5000 6000 = false ↔ 6000 - 5000 ≤ 100000) :=
  ⟨cdc_failsafe_spec.1 7,
   cdc_failsafe_spec.2.1 (fun _ => true) 12345
      (CDCParser.init RCChannels.centerAll) (crsf_build_rc_frame (fun _ => 992))
      (by decide) (by decide) (by decide) (by decide) (by decide),
   cdc_failsafe_spec.2.2 5000 6000 (by decide) (by decide) (by decide)
      (by decide)⟩

/-- C2 counterexample to the claim as stated: a valid RC channel frame
decoded while micros() reads 0 records lastRCFrameTime = 0, so the very
next failsafe query (elapsed 0, well inside the 100000 us window) still
reports failsafe: the decode is indistinguishable from the never-updated
state. -/
theorem cdc_failsafe_time_zero_counterexample :
    (CDCParser.processBytes (fun _ => true) 0
        (CDCParser.init RCChannels.centerAll)
        (crsf_build_rc_frame (fun _ => 992))).parser.rcFramesReceived = 1 ∧
      (CDCParser.processBytes (fun _ => true) 0
          (CDCParser.init RCChannels.centerAll)
          (crsf_build_rc_frame (fun _ => 992))).parser.lastRCFrameTime = 0 ∧
      CDCParser.isFailsafe 0 0 = true ∧ 0 - 0 ≤ 100000 := by
  refine ⟨by decide, by decide, by decide, by decide⟩

/-- C7: CRSFTask::queueOutputFrame returns false and leaves the whole
task state (output slot, stored length, pending flag) unchanged whenever
a frame is already pending or the length exceeds the 64-byte maximum;
otherwise it copies the first length bytes into the single slot, records
the length, sets the pending flag and returns true. -/
theorem queue_output_frame_single_slot :
    (∀ (s : CRSFTask) (data : List ℕ) (length : ℕ),
        s.outputFramePending = true ∨ length > 64 →
        CRSFTask.queueOutputFrame s data length = (s, false)) ∧
    (∀ (s : CRSFTask) (data : List ℕ) (length : ℕ),
        s.outputFramePending = false → length ≤ 64 →
        CRSFTask.queueOutputFrame s data length
          = ({ s with
                outputFrameBuffer := data.take length,
                outputFrameLength := length,
                outputFramePending := true }, true)) := by
  constructor
  · intro s data length h
    unfold CRSFTask.queueOutputFrame CRSF_MAX_FRAME_SIZE
    rw [if_pos]
    rcases h with h | h
    · exact Or.inl h
    · exact Or.inr h
  · intro s data length hp hl
    unfold CRSFTask.queueOutputFrame CRSF_MAX_FRAME_SIZE
    rw [if_neg]
    rintro (h | h)
    · rw [hp] at h; exact Bool.false_ne_true h
    · omega

theorem queue_output_frame_single_slot_witness :
    CRSFTask.queueOutputFrame
        { CRSFTask.init with outputFramePending := true } [1, 2, 3] 3
      = ({ CRSFTask.init with outputFramePending := true }, false) ∧
      CRSFTask.queueOutputFrame CRSFTask.init [1, 2, 3] 200
        = (CRSFTask.init, false) ∧
      CRSFTask.queueOutputFrame CRSFTask.init [1, 2, 3] 3
        = ({ CRSFTask.init with
              outputFrameBuffer := [1, 2, 3].take 3,
              outputFrameLength := 3,
              outputFramePending := true }, true) :=
  ⟨queue_output_frame_single_slot.1 _ [1, 2, 3] 3 (Or.inl rfl),
   queue_output_frame_single_slot.1 CRSFTask.init [1, 2, 3] 200
      (Or.inr (by norm_num)),
   queue_output_frame_single_slot.2 CRSFTask.init [1, 2, 3] 3 rfl
      (by norm_num)⟩

lemma cdc_processByte_safe (fwd : List ℕ → Bool) (now : ℕ)
    (s : CDCParser) (b : ℕ)
    (hinv : s.state = .RECEIVE_DATA →
      2 ≤ s.rxBufferIndex ∧ s.rxBufferIndex < s.rxFrameLength ∧
        s.rxFrameLength ≤ 64) :
    (∀ i ∈ (CDCParser.processByte fwd now s b).writes, i < 64) ∧
      ((CDCParser.processByte fwd now s b).parser.state = .RECEIVE_DATA →
        2 ≤ (CDCParser.processByte fwd now s b).parser.rxBufferIndex ∧
          (CDCParser.processByte fwd now s b).parser.rxBufferIndex
            < (CDCParser.processByte fwd now s b).parser.rxFrameLength ∧
          (CDCParser.processByte fwd now s b).parser.rxFrameLength ≤ 64) := by
  cases hs : s.state with
  | WAIT_SYNC =>
      simp only [CDCParser.processByte, hs]
      split_ifs <;> simp [hs]
  | WAIT_LENGTH =>
      simp only [CDCParser.processByte, hs]
      split_ifs with h <;> simp only [CRSF_MAX_FRAME_SIZE] at h <;>
        simp [hs] <;> omega
  | RECEIVE_DATA =>
      obtain ⟨hi2, hilt, hle⟩ := hinv hs
      simp only [CDCParser.processByte, hs]
      split_ifs with h <;> simp <;> omega

lemma cdc_processBytes_safe (fwd : List ℕ → Bool) (now : ℕ) :
    ∀ (bs : List ℕ) (s : CDCParser),
      (s.state = .RECEIVE_DATA →
        2 ≤ s.rxBufferIndex ∧ s.rxBufferIndex < s.rxFrameLength ∧
          s.rxFrameLength ≤ 64) →
      ∀ i ∈ (CDCParser.processBytes fwd now s bs).writes, i < 64 := by
  intro bs
  induction bs with
  | nil => intro s _ i hi; simp [CDCParser.processBytes] at hi
  | cons b rest ih =>
      intro s hinv i hi
      simp only [CDCParser.processBytes, List.mem_append] at hi
      rcases hi with hi | hi
      · exact (cdc_processByte_safe fwd now s b hinv).1 i hi
      · exact ih _ (cdc_processByte_safe fwd now s b hinv).2 i hi

lemma crsf_processByte_safe (s : CRSFParser) (b : ℕ)
    (hinv : s.state = .RECEIVE_DATA →
      2 ≤ s.rxBufferIndex ∧ s.rxBufferIndex < s.rxFrameLength ∧
        s.rxFrameLength ≤ 64) :
    (∀ i ∈ (CRSFParser.processByte s b).writes, i < 64) ∧
      ((CRSFParser.processByte s b).parser.state = .RECEIVE_DATA →
        2 ≤ (CRSFParser.processByte s b).parser.rxBufferIndex ∧
          (CRSFParser.processByte s b).parser.rxBufferIndex
            < (CRSFParser.processByte s b).parser.rxFrameLength ∧
          (CRSFParser.processByte s b).parser.rxFrameLength ≤ 64) := by
  cases hs : s.state with
  | WAIT_SYNC =>
      simp only [CRSFParser.processByte, hs]
      split_ifs <;> simp [hs]
  | WAIT_LENGTH =>
      simp only [CRSFParser.processByte, hs]
      split_ifs with h <;> simp only [CRSF_MAX_FRAME_SIZE] at h <;>
        simp [hs] <;> omega
  | RECEIVE_DATA =>
      obtain ⟨hi2, hilt, hle⟩ := hinv hs
      simp only [CRSFParser.processByte, hs]
      split_ifs with h <;> simp <;> omega

lemma crsf_processBytes_safe :
    ∀ (bs : List ℕ) (s : CRSFParser),
      (s.state = .RECEIVE_DATA →
        2 ≤ s.rxBufferIndex ∧ s.rxBufferIndex < s.rxFrameLength ∧
          s.rxFrameLength ≤ 64) →
      ∀ i ∈ (CRSFParser.processBytes s bs).writes, i < 64 := by
  intro bs
  induction bs with
  | nil => intro s _ i hi; simp [CRSFParser.processBytes] at hi
  | cons b rest ih =>
      intro s hinv i hi
      simp only [CRSFParser.processBytes, List.mem_append] at hi
      rcases hi with hi | hi
      · exact (crsf_processByte_safe s b hinv).1 i hi
      · exact ih _ (crsf_processByte_safe s b hinv).2 i hi

lemma cdc_processFrame_events_crcOk (fwd : List ℕ → Bool) (now : ℕ)
    (s : CDCParser) (frame : List ℕ) :
    ∀ f ∈ (CDCParser.processFrame fwd now s frame).2, crcOk f = true := by
  intro f hf
  simp only [CDCParser.processFrame] at hf
  by_cases h4 : frame.length < 4
  · rw [if_pos h4] at hf; simp at hf
  · rw [if_neg h4] at hf
    by_cases hL : frame.getD 1 0 + 2 ≠ frame.length
    · rw [if_pos hL] at hf; simp at hf
    · rw [if_neg hL] at hf
      by_cases hC : crsf_crc8 ((frame.drop 2).take (frame.getD 1 0 - 1))
          ≠ frame.getD (frame.length - 1) 0
      · rw [if_pos hC] at hf; simp at hf
      · rw [if_neg hC] at hf
        have hcrc : crcOk frame = true := by
          simp only [crcOk, beq_iff_eq]
          exact not_not.mp hC
        split_ifs at hf <;> simp at hf <;> (rw [hf]; exact hcrc)

lemma crsf_processFrame_events_crcOk (s : CRSFParser) (frame : List ℕ) :
    ∀ f ∈ (CRSFParser.processFrame s frame).2.1, crcOk f = true := by
  intro f hf
  simp only [CRSFParser.processFrame] at hf
  by_cases h4 : frame.length < 4
  · rw [if_pos h4] at hf; simp at hf
  · rw [if_neg h4] at hf
    by_cases hL : frame.getD 1 0 + 2 ≠ frame.length
    · rw [if_pos hL] at hf; simp at hf
    · rw [if_neg hL] at hf
      by_cases hC : crsf_crc8 ((frame.drop 2).take (frame.getD 1 0 - 1))
          ≠ frame.getD (frame.length - 1) 0
      · rw [if_pos hC] at hf; simp at hf
      · rw [if_neg hC] at hf
        have hcrc : crcOk frame = true := by
          simp only [crcOk, beq_iff_eq]
          exact not_not.mp hC
        split_ifs at hf <;> simp at hf <;> (rw [hf]; exact hcrc)

lemma cdc_processByte_events_crcOk (fwd : List ℕ → Bool) (now : ℕ)
    (s : CDCParser) (b : ℕ) :
    ∀ f ∈ (CDCParser.processByte fwd now s b).forwarded, crcOk f = true := by
  intro f hf
  cases hs : s.state with
  | WAIT_SYNC =>
      simp only [CDCParser.processByte, hs] at hf
      split_ifs at hf <;> simp at hf
  | WAIT_LENGTH =>
      simp only [CDCParser.processByte, hs] at hf
      split_ifs at hf <;> simp at hf
  | RECEIVE_DATA =>
      simp only [CDCParser.processByte, hs] at hf
      split_ifs at hf with h
      · exact cdc_processFrame_events_crcOk fwd now _ _ f hf
      · simp at hf

lemma crsf_processByte_events_crcOk (s : CRSFParser) (b : ℕ) :
    ∀ f ∈ (CRSFParser.processByte s b).toCDC, crcOk f = true := by
  intro f hf
  cases hs : s.state with
  | WAIT_SYNC =>
      simp only [CRSFParser.processByte, hs] at hf
      split_ifs at hf <;> simp at hf
  | WAIT_LENGTH =>
      simp only [CRSFParser.processByte, hs] at hf
      split_ifs at hf <;> simp at hf
  | RECEIVE_DATA =>
      simp only [CRSFParser.processByte, hs] at hf
      split_ifs at hf with h
      · exact crsf_processFrame_events_crcOk _ _ f hf
      · simp at hf

lemma cdc_processBytes_events_crcOk (fwd : List ℕ → Bool) (now : ℕ) :
    ∀ (bs : List ℕ) (s : CDCParser),
      ∀ f ∈ (CDCParser.processBytes fwd now s bs).forwarded, crcOk f = true := by
  intro bs
  induction bs with
  | nil => intro s f hf; simp [CDCParser.processBytes] at hf
  | cons b rest ih =>
      intro s f hf
      simp only [CDCParser.processBytes, List.mem_append] at hf
      rcases hf with hf | hf
      · exact cdc_processByte_events_crcOk fwd now s b f hf
      · exact ih _ f hf

lemma crsf_processBytes_events_crcOk :
    ∀ (bs : List ℕ) (s : CRSFParser),
      ∀ f ∈ (CRSFParser.processBytes s bs).toCDC, crcOk f = true := by
  intro bs
  induction bs with
  | nil => intro s f hf; simp [CRSFParser.processBytes] at hf
  | cons b rest ih =>
      intro s f hf
      simp only [CRSFParser.processBytes, List.mem_append] at hf
      rcases hf with hf | hf
      · exact crsf_processByte_events_crcOk s b f hf
      · exact ih _ f hf

/-- C8: feeding any byte sequence to either parser from its initial state
never writes outside the 64-byte rx buffer; in the length state a byte is
accepted only in 2..62 (keeping the total assembled length at most 64)
and any other byte resets the machine to WAIT_SYNC; and no frame whose
CRC mismatches is ever handed to a forwarding callback. -/
theorem assembler_safety :
    (∀ (fwd : List ℕ → Bool) (now : ℕ) (chs bs : List ℕ),
        ∀ i ∈ (CDCParser.processBytes fwd now (CDCParser.init chs) bs).writes,
          i < 64) ∧
    (∀ bs : List ℕ,
        ∀ i ∈ (CRSFParser.processBytes CRSFParser.init bs).writes, i < 64) ∧
    (∀ (fwd : List ℕ → Bool) (now : ℕ) (s : CDCParser) (b : ℕ),
        s.state = .WAIT_LENGTH →
        ((2 ≤ b ∧ b ≤ 62) →
            (CDCParser.processByte fwd now s b).parser.state
              = .RECEIVE_DATA ∧
            (CDCParser.processByte fwd now s b).parser.rxFrameLength
              = b + 2 ∧
            b + 2 ≤ 64) ∧
        (¬(2 ≤ b ∧ b ≤ 62) →
            (CDCParser.processByte fwd now s b).parser
              = { s with state := .WAIT_SYNC })) ∧
    (∀ (s : CRSFParser) (b : ℕ),
        s.state = .WAIT_LENGTH →
        ((2 ≤ b ∧ b ≤ 62) →
            (CRSFParser.processByte s b).parser.state = .RECEIVE_DATA ∧
            (CRSFParser.processByte s b).parser.rxFrameLength = b + 2 ∧
            b + 2 ≤ 64) ∧
        (¬(2 ≤ b ∧ b ≤ 62) →
            (CRSFParser.processByte s b).parser
              = { s with state := .WAIT_SYNC })) ∧
    (∀ (fwd : List ℕ → Bool) (now : ℕ) (s : CDCParser) (bs : List ℕ),
        ∀ f ∈ (CDCParser.processBytes fwd now s bs).forwarded,
          crcOk f = true) ∧
    (∀ (s : CRSFParser) (bs : List ℕ),
        ∀ f ∈ (CRSFParser.processBytes s bs).toCDC, crcOk f = true) := by
  refine ⟨?_, ?_, ?_, ?_, ?_, ?_⟩
  · intro fwd now chs bs
    exact cdc_processBytes_safe fwd now bs (CDCParser.init chs)
      (by intro h; simp [CDCParser.init] at h)
  · intro bs
    exact crsf_processBytes_safe bs CRSFParser.init
      (by intro h; simp [CRSFParser.init] at h)
  · intro fwd now s b hs
    constructor
    · intro h
      have hcond : 2 ≤ b ∧ b ≤ CRSF_MAX_FRAME_SIZE - 2 := by
        unfold CRSF_MAX_FRAME_SIZE; omega
      simp only [CDCParser.processByte, hs, if_pos hcond]
      exact ⟨trivial, trivial, by omega⟩
    · intro h
      have hcond : ¬ (2 ≤ b ∧ b ≤ CRSF_MAX_FRAME_SIZE - 2) := by
        unfold CRSF_MAX_FRAME_SIZE; omega
      simp only [CDCParser.processByte, hs, if_neg hcond]
  · intro s b hs
    constructor
    · intro h
      have hcond : 2 ≤ b ∧ b ≤ CRSF_MAX_FRAME_SIZE - 2 := by
        unfold CRSF_MAX_FRAME_SIZE; omega
      simp only [CRSFParser.processByte, hs, if_pos hcond]
      exact ⟨trivial, trivial, by omega⟩
    · intro h
      have hcond : ¬ (2 ≤ b ∧ b ≤ CRSF_MAX_FRAME_SIZE - 2) := by
        unfold CRSF_MAX_FRAME_SIZE; omega
      simp only [CRSFParser.processByte, hs, if_neg hcond]
  · intro fwd now s bs
    exact cdc_processBytes_events_crcOk fwd now bs s
  · intro s bs
    exact crsf_processBytes_events_crcOk bs s

theorem assembler_safety_witness :
    (5 : ℕ) < 64 ∧
      ((CDCParser.processByte (fun _ => true) 0
          { CDCParser.init [] with state := .WAIT_LENGTH } 24).parser.state
        = .RECEIVE_DATA ∧
        (CDCParser.processByte (fun _ => true) 0
            { CDCParser.init [] with state := .WAIT_LENGTH } 24).parser.rxFrameLength
          = 24 + 2 ∧
        24 + 2 ≤ 64) ∧
      (CDCParser.processByte (fun _ => true) 0
          { CDCParser.init [] with state := .WAIT_LENGTH } 70).parser
        = { { CDCParser.init [] with state := .WAIT_LENGTH } with
            state := .WAIT_SYNC } ∧
      crcOk crsf_build_ping_frame = true :=
  ⟨assembler_safety.1 (fun _ => true) 0 [] crsf_build_ping_frame 5 (by decide),
   (assembler_safety.2.2.1 (fun _ => true) 0
      { CDCParser.init [] with state := .WAIT_LENGTH } 24 rfl).1
      (by norm_num),
   (assembler_safety.2.2.1 (fun _ => true) 0
      { CDCParser.init [] with state := .WAIT_LENGTH } 70 rfl).2
      (by norm_num),
   assembler_safety.2.2.2.2.1 (fun _ => true) 0 (CDCParser.init [])
      crsf_build_ping_frame crsf_build_ping_frame (by decide)⟩

/-- C4: whenever CRSFTask::run is invoked with the UART not transmitting
and the adjusted period elapsed since lastRCFrameTime: under failsafe
nothing is transmitted but lastRCFrameTime still advances to now;
otherwise a pending output frame is transmitted and the pending flag
cleared, or else an RC channels frame built from the current channel set
is transmitted; lastRCFrameTime advances to now in every branch. -/
theorem crsf_task_run_policy :
    ∀ (s : SysState) (now nowMs : ℕ),
      s.uart.transmitting = false →
      (now + 2 ^ 32 - s.task.lastRCFrameTime) % 2 ^ 32
          ≥ ((s.drain nowMs).sync.getAdjustedPeriod).1 →
      ((s.run now nowMs).task.lastRCFrameTime = now ∧
       (CDCParser.isFailsafe s.cdcLastRCFrameTime now = true →
          (s.run now nowMs).uart.txLog = s.uart.txLog ∧
          (s.run now nowMs).task.outputFramePending
            = s.task.outputFramePending ∧
          (s.run now nowMs).task.rcFramesSent = s.task.rcFramesSent) ∧
       (CDCParser.isFailsafe s.cdcLastRCFrameTime now = false →
          s.task.outputFramePending = true →
          (s.run now nowMs).uart.txLog
            = s.uart.txLog
              ++ [s.task.outputFrameBuffer.take s.task.outputFrameLength] ∧
          (s.run now nowMs).task.outputFramePending = false) ∧
       (CDCParser.isFailsafe s.cdcLastRCFrameTime now = false →
          s.task.outputFramePending = false →
          (s.run now nowMs).uart.txLog
            = s.uart.txLog
              ++ [crsf_build_rc_frame (fun i => s.channels.getD i 0)] ∧
          (s.run now nowMs).task.rcFramesSent = s.task.rcFramesSent + 1 ∧
          (s.run now nowMs).task.outputFramePending = false)) := by
  intro s now nowMs htx helapsed
  have hdtx : (s.drain nowMs).uart.transmitting = false := by
    rw [show (s.drain nowMs).uart.transmitting = s.uart.transmitting from rfl,
      htx]
  have hdec : decide ((now + 2 ^ 32
      - (s.drain nowMs).task.lastRCFrameTime) % 2 ^ 32
      ≥ ((s.drain nowMs).sync.getAdjustedPeriod).1) = true := by
    rw [show (s.drain nowMs).task = s.task from rfl]
    exact decide_eq_true helapsed
  have hrun : s.run now nowMs =
      (if CDCParser.isFailsafe s.cdcLastRCFrameTime now then
        { s.drain nowMs with
            sync := ((s.drain nowMs).sync.getAdjustedPeriod).2,
            task := { s.task with lastRCFrameTime := now } }
      else if s.task.outputFramePending then
        { s.drain nowMs with
            sync := ((s.drain nowMs).sync.getAdjustedPeriod).2,
            uart := ((s.drain nowMs).uart).transmit
              (s.task.outputFrameBuffer.take s.task.outputFrameLength),
            task := { s.task with
              outputFramePending := false, lastRCFrameTime := now } }
      else
        { s.drain nowMs with
            sync := ((s.drain nowMs).sync.getAdjustedPeriod).2,
            uart := ((s.drain nowMs).uart).transmit
              (crsf_build_rc_frame (fun i => s.channels.getD i 0)),
            task := { s.task with
              rcFramesSent := s.task.rcFramesSent + 1,
              lastRCFrameTime := now } }) := by
    simp only [SysState.run, htx, Bool.false_and, Bool.false_eq_true,
      if_false, Bool.not_false, if_true, hdtx, SysState.isTimeToSendRC,
      hdec, SysState.sendRCFrame]
    rfl
  rw [hrun]
  by_cases hf : CDCParser.isFailsafe s.cdcLastRCFrameTime now
  · rw [if_pos hf]
    exact ⟨rfl, fun _ => ⟨rfl, rfl, rfl⟩,
      fun h _ => by simp [h] at hf,
      fun h _ => by simp [h] at hf⟩
  · have hf0 : CDCParser.isFailsafe s.cdcLastRCFrameTime now = false := by
      simpa using hf
    rw [if_neg hf]
    by_cases hp : s.task.outputFramePending
    · rw [if_pos hp]
      exact ⟨rfl, fun h => by simp [hf0] at h,
        fun _ _ => ⟨rfl, rfl⟩,
        fun _ hp2 => by simp [hp2] at hp⟩
    · have hp0 : s.task.outputFramePending = false := by simpa using hp
      rw [if_neg hp]
      exact ⟨rfl, fun h => by simp [hf0] at h,
        fun _ hp2 => by simp [hp2] at hp0,
        fun _ _ => ⟨rfl, rfl, hp0⟩⟩

theorem crsf_task_run_policy_witness :
    ((SysState.mk (CRSFUart.mk false false [] []) CRSFParser.init
        ModuleSync.init 5 RCChannels.centerAll CRSFTask.init).run
          5000 3).task.lastRCFrameTime = 5000 ∧
      ((SysState.mk (CRSFUart.mk false false [] []) CRSFParser.init
          ModuleSync.init 5 RCChannels.centerAll CRSFTask.init).run
            5000 3).uart.txLog
        = [] ++ [crsf_build_rc_frame (fun i => RCChannels.centerAll.getD i 0)] ∧
      ((SysState.mk (CRSFUart.mk false false [] []) CRSFParser.init
          ModuleSync.init 5 RCChannels.centerAll CRSFTask.init).run
            5000 3).task.rcFramesSent = 0 + 1 := by
  have h := crsf_task_run_policy
    (SysState.mk (CRSFUart.mk false false [] []) CRSFParser.init
      ModuleSync.init 5 RCChannels.centerAll CRSFTask.init) 5000 3 rfl
    (by decide)
  exact ⟨h.1, (h.2.2.2 (by decide) rfl).1, (h.2.2.2 (by decide) rfl).2.1⟩
